import Mathlib

/-! Verification development for the thunderstorm-estimator sounding pipeline
(`cape.py`): column-role inference, profile building, reduction of the external
index-library results, and the threshold classifier. -/

namespace Cape

/-- Model of a Python float value: NaN, positive or negative infinity, or a
finite value represented as a rational number. -/
inductive FloatVal where
  | nan
  | inf
  | ninf
  | fin (q : ℚ)
deriving DecidableEq

/-- Strict less-than on float values with IEEE-754 semantics: every comparison
involving NaN is false. -/
def flt : FloatVal → FloatVal → Bool
  | .nan, _ => false
  | _, .nan => false
  | .ninf, .ninf => false
  | .ninf, _ => true
  | _, .ninf => false
  | .inf, _ => false
  | .fin _, .inf => true
  | .fin a, .fin b => a < b

/-- Non-strict less-than-or-equal on float values with IEEE-754 semantics:
every comparison involving NaN is false. -/
def fle : FloatVal → FloatVal → Bool
  | .nan, _ => false
  | _, .nan => false
  | .ninf, _ => true
  | _, .ninf => false
  | _, .inf => true
  | .inf, _ => false
  | .fin a, .fin b => a ≤ b

/-- Python `a >= b` on floats. -/
def fge (a b : FloatVal) : Bool := fle b a

/-- Python `a > b` on floats. -/
def fgt (a b : FloatVal) : Bool := flt b a

/-- Pandas missing-value test: only NaN counts as missing (`dropna` keeps
infinities). -/
def isNA : FloatVal → Bool
  | .nan => true
  | _ => false

/-- Finiteness test on float values. -/
def isFinite : FloatVal → Bool
  | .fin _ => true
  | _ => false

/-- Overall thunderstorm likelihood category produced by the final if/elif/else
chain of `cape.py` (the source stores it as a display string and colour; the
three branches are in bijection with this type). -/
inductive OverallCategory where
  | high
  | moderate
  | low
deriving DecidableEq

/-- Overall assessment, `cape.py` lines 133-141: an if/elif/else chain over the
three reduced index values, first matching branch wins.  A Python chained
comparison `25 <= k_val < 35` is the conjunction of its two comparisons. -/
def overallAssessment (k_val li_val si_val : FloatVal) : OverallCategory :=
  if fge k_val (.fin 35) || flt li_val (.fin (-6)) || flt si_val (.fin (-3)) then
    .high
  else if (fle (.fin 25) k_val && flt k_val (.fin 35)) ||
      (fle (.fin (-6)) li_val && flt li_val (.fin (-3))) ||
      (fle (.fin (-3)) si_val && flt si_val (.fin 1)) then
    .moderate
  else
    .low

/-- Detailed K-Index interpretation, `cape.py` lines 163-170. -/
def k_cat (k_val : FloatVal) : String :=
  if flt k_val (.fin 20) then "Very low thunderstorm potential"
  else if fle (.fin 20) k_val && flt k_val (.fin 25) then "Weak thunderstorm potential"
  else if fle (.fin 25) k_val && flt k_val (.fin 35) then "Moderate thunderstorm potential"
  else "High thunderstorm potential"

/-- Detailed Lifted-Index interpretation, `cape.py` lines 174-181. -/
def li_cat (li_val : FloatVal) : String :=
  if fgt li_val (.fin 0) then "Stable atmosphere"
  else if fle (.fin (-3)) li_val && fle li_val (.fin 0) then "Slightly unstable"
  else if fle (.fin (-6)) li_val && flt li_val (.fin (-3)) then "Moderately unstable"
  else "Strongly unstable (favourable for deep convection)"

/-- Detailed Showalter-Index interpretation, `cape.py` lines 185-192. -/
def si_cat (si_val : FloatVal) : String :=
  if fgt si_val (.fin 3) then "Stable"
  else if fle (.fin 1) si_val && fle si_val (.fin 3) then "Weakly unstable"
  else if fle (.fin (-3)) si_val && flt si_val (.fin 1) then "Moderately unstable"
  else "Strongly unstable"

/-- Model of one raw table cell as it looks to
`pd.to_numeric(..., errors="coerce")`: an already numeric value, a string that
parses as a number (the value may be an infinity, e.g. the string "inf"), a
string that does not parse, or a missing entry. -/
inductive Cell where
  | num (v : FloatVal)
  | strNum (v : FloatVal)
  | strBad
  | blank
deriving DecidableEq

/-- Semantics of `pd.to_numeric(x, errors="coerce")` on one cell: numeric
values pass through unchanged, parseable strings produce their value, and
everything else coerces to NaN. -/
def to_numeric : Cell → FloatVal
  | .num v => v
  | .strNum v => v
  | .strBad => .nan
  | .blank => .nan

/-- Raw input row already projected to the three mapped columns
(`df[[temp_col, dew_col, press_col]]`, `cape.py` line 106). -/
structure RawRow where
  temp : Cell
  dew : Cell
  press : Cell
deriving DecidableEq

/-- Cleaned profile row: the three coerced values of one level. -/
structure ProfileRow where
  temp : FloatVal
  dew : FloatVal
  press : FloatVal
deriving DecidableEq

/-- Column-wise numeric coercion of one row, `cape.py` lines 107-109. -/
def coerceRow (r : RawRow) : ProfileRow :=
  ⟨to_numeric r.temp, to_numeric r.dew, to_numeric r.press⟩

/-- Row-level missingness test used by `prof.dropna()`: a row is dropped when
at least one of its three values is NaN. -/
def rowHasNA (r : ProfileRow) : Bool :=
  isNA r.temp || isNA r.dew || isNA r.press

/-- Semantics of `prof.dropna()`, `cape.py` line 110. -/
def dropna (rs : List ProfileRow) : List ProfileRow :=
  rs.filter (fun r => !rowHasNA r)

/-- Row comparison realised by
`prof.sort_values(by=press_col, ascending=False)`: descending by pressure with
NaN pressures placed last (pandas default `na_position="last"`; after `dropna`
no NaN pressure remains, so the second disjunct is inert in this pipeline). -/
def sortLe (a b : ProfileRow) : Bool :=
  fge a.press b.press || isNA b.press

/-- Contract of `prof.sort_values(by=press_col, ascending=False)`, `cape.py`
line 116.  Pandas documents only that the output is the input reordered by
descending pressure (NaN last); with the default `kind="quicksort"` the sort
is NOT stable, so the relative order of rows with equal pressure is
unspecified.  This relation holds of every output the call may produce. -/
def IsSortValuesResult (input output : List ProfileRow) : Prop :=
  output.Perm input ∧ output.Pairwise (fun a b => sortLe a b = true)

/-- One admissible implementation of the `sort_values` contract (a stable
merge sort), used to run the pipeline on concrete inputs.  Properties that
depend on tie order hold for this implementation but are NOT guaranteed by the
pandas call, whose only contract is `IsSortValuesResult`; theorems about tie
order are therefore stated against the contract, not this function. -/
def sort_values (rs : List ProfileRow) : List ProfileRow :=
  rs.mergeSort sortLe

/-- ProfileBuilder, `cape.py` lines 106-116: project the three mapped columns,
coerce each value to numeric, drop rows with a missing value, and sort by
pressure descending (using the admissible `sort_values` implementation; any
run of the program produces some output satisfying `IsSortValuesResult` on the
cleaned rows). -/
def buildProfile (rows : List RawRow) : List ProfileRow :=
  sort_values (dropna (rows.map coerceRow))

/-- Re-injection of a built profile as raw input (each value is already
numeric), used to state idempotence of ProfileBuilder. -/
def profileToRaw (r : ProfileRow) : RawRow :=
  ⟨.num r.temp, .num r.dew, .num r.press⟩

/-- Lower-casing of a column name (Python `col.lower()`). -/
def strLower (s : String) : String :=
  ⟨s.data.map Char.toLower⟩

/-- Contiguous-substring test on character lists. -/
def isInfixList (pat : List Char) : List Char → Bool
  | [] => pat.isEmpty
  | c :: rest => pat.isPrefixOf (c :: rest) || isInfixList pat rest

/-- Python substring test `pat in name`. -/
def containsSub (name pat : String) : Bool :=
  isInfixList pat.data name.data

/-- Role assignment state of the column-detection heuristic. -/
structure RoleMap where
  temp_col : Option String
  dew_col : Option String
  press_col : Option String
  alt_col : Option String
deriving DecidableEq

/-- One iteration of the detection loop, `cape.py` lines 72-81: each role
claims the current column when its substring matches the lowercased name and
the role is still unassigned (first match wins). -/
def inferStep (st : RoleMap) (col : String) : RoleMap :=
  let name := strLower col
  let st1 := if containsSub name "temp" && st.temp_col.isNone then
    { st with temp_col := some col } else st
  let st2 := if containsSub name "dew" && st1.dew_col.isNone then
    { st1 with dew_col := some col } else st1
  let st3 := if containsSub name "press" && st2.press_col.isNone then
    { st2 with press_col := some col } else st2
  if (containsSub name "alt" || containsSub name "height") && st3.alt_col.isNone then
    { st3 with alt_col := some col } else st3

/-- Scan of all column names in original order, `cape.py` lines 67-81. -/
def scanColumns (cols : List String) : RoleMap :=
  cols.foldl inferStep ⟨none, none, none, none⟩

/-- Positional fallbacks, `cape.py` lines 84-89: unresolved temperature, dew
point and pressure fall back to columns 0, 1 and 2 when those exist; altitude
has no fallback. -/
def applyFallbacks (st : RoleMap) (cols : List String) : RoleMap :=
  let st1 := if st.temp_col.isNone && decide (1 ≤ cols.length) then
    { st with temp_col := cols[0]? } else st
  let st2 := if st1.dew_col.isNone && decide (2 ≤ cols.length) then
    { st1 with dew_col := cols[1]? } else st1
  if st2.press_col.isNone && decide (3 ≤ cols.length) then
    { st2 with press_col := cols[2]? } else st2

/-- ColumnInferencer, `cape.py` lines 67-89: substring scan followed by the
positional fallbacks. -/
def inferColumns (cols : List String) : RoleMap :=
  applyFallbacks (scanColumns cols) cols

/-- Raw result of one external index-library call: the library may return a
scalar quantity or an array of per-level values. -/
inductive RawIndex where
  | scalar (v : FloatVal)
  | array (vs : List FloatVal)
deriving DecidableEq

/-- Semantics of Python `float(Q.m)` on a library result (`cape.py` lines
128-130): a scalar converts directly, a size-1 array converts to its only
element, and any other array raises
`TypeError: only size-1 arrays can be converted to Python scalars`. -/
def pyFloat : RawIndex → Except String FloatVal
  | .scalar v => .ok v
  | .array [v] => .ok v
  | .array _ => .error "only size-1 arrays can be converted to Python scalars"

/-- Finite component of a float value, used by the spec-modelled reduction. -/
def finPart : FloatVal → Option ℚ
  | .fin q => some q
  | _ => none

/-- Modelled from the spec (section 4.3 reduction rule, absent from the code):
an array-valued result is reduced to the arithmetic mean over its finite
entries, undefined when no finite entry exists; a scalar is used directly.
Stated only for comparison with `pyFloat`, the reduction the code performs. -/
def specReduceIndex : RawIndex → Option FloatVal
  | .scalar v => some v
  | .array vs =>
    let fins := vs.filterMap finPart
    if fins.isEmpty then none else some (.fin (fins.sum / (fins.length : ℚ)))

/-- Library-call interface: each index function receives the pressure,
temperature and dew-point arrays of the ordered profile and either returns a
raw result or raises, modelled as `Except`. -/
def IndexFn : Type :=
  List FloatVal → List FloatVal → List FloatVal → Except String RawIndex

/-- Observable outputs of one run of the main block (`cape.py` lines 54-271),
in emission order; chart items record the data they are built from. -/
inductive RenderItem where
  | previewTable
  | emptyProfileError
  | assessmentCard (c : OverallCategory)
  | metrics (k li si : FloatVal)
  | interpretation (kc lc sc : String)
  | profilePlot (rows : List ProfileRow)
  | indexChart (k li si : FloatVal)
  | altitudeChart (pairs : List (FloatVal × FloatVal))
  | indicesError (msg : String)
deriving DecidableEq

/-- Recogniser for the temperature/dew-point-vs-pressure plot item. -/
def isProfilePlot : RenderItem → Bool
  | .profilePlot _ => true
  | _ => false

/-- Altitude-profile cleaning, `cape.py` lines 252-255: coerce the altitude
and temperature cells and drop rows with a missing value; no sorting. -/
def buildAltProfile (rows : List (Cell × Cell)) : List (FloatVal × FloatVal) :=
  (rows.map (fun p => (to_numeric p.1, to_numeric p.2))).filter
    (fun p => !(isNA p.1 || isNA p.2))

/-- Input of one main-block run: the profile cells projected by the resolved
columns and, when an altitude column is selected, the projected
(altitude, temperature) cells. -/
structure MainInput where
  rawRows : List RawRow
  altRows : Option (List (Cell × Cell))

/-- Body of the `try` block, `cape.py` lines 122-268: compute the three
indices, reduce each with `float`, classify, and build every success-path
render item (cards, interpretation, both charts, optional altitude chart).
The first raising step aborts the whole block, modelled by `Except`
threading. -/
def tryBody (inp : MainInput) (prof : List ProfileRow)
    (kIndexFn liIndexFn siIndexFn : IndexFn) : Except String (List RenderItem) := do
  let P := prof.map (fun r => r.press)
  let T := prof.map (fun r => r.temp)
  let Td := prof.map (fun r => r.dew)
  let K ← kIndexFn P T Td
  let LI ← liIndexFn P T Td
  let SI ← siIndexFn P T Td
  let k_val ← pyFloat K
  let li_val ← pyFloat LI
  let si_val ← pyFloat SI
  let items := [RenderItem.assessmentCard (overallAssessment k_val li_val si_val),
    RenderItem.metrics k_val li_val si_val,
    RenderItem.interpretation (k_cat k_val) (li_cat li_val) (si_cat si_val),
    RenderItem.profilePlot prof,
    RenderItem.indexChart k_val li_val si_val]
  match inp.altRows with
  | none => pure items
  | some ar =>
    let ap := buildAltProfile ar
    if ap.isEmpty then pure items else pure (items ++ [RenderItem.altitudeChart ap])

/-- Main block, `cape.py` lines 54-271: render the preview, build the profile,
stop with an error message when it is empty, otherwise run the guarded
index/chart section; its `except` handler renders
`st.error("Error calculating indices: " + cause)`. -/
def mainLogic (inp : MainInput) (kIndexFn liIndexFn siIndexFn : IndexFn) :
    List RenderItem :=
  RenderItem.previewTable ::
    (let prof := buildProfile inp.rawRows
     if prof.isEmpty then [RenderItem.emptyProfileError]
     else
       match tryBody inp prof kIndexFn liIndexFn siIndexFn with
       | .ok items => items
       | .error e => [RenderItem.indicesError ("Error calculating indices: " ++ e)])

/-- Library stub that raises on every call. -/
def raiseAll : IndexFn :=
  fun _ _ _ => .error "insufficient data"

/-- Concrete one-level input used by the failure-path witnesses. -/
def oneRowInput : MainInput :=
  ⟨[⟨Cell.num (.fin 25), Cell.num (.fin 20), Cell.num (.fin 1000)⟩], none⟩

/-- Concrete two-row input whose rows have equal (tied) pressure, used to show
that the sort contract does not fix the order of tied rows. -/
def tiedRawRows : List RawRow :=
  [⟨Cell.num (.fin 1), Cell.num (.fin 1), Cell.num (.fin 1000)⟩,
   ⟨Cell.num (.fin 2), Cell.num (.fin 2), Cell.num (.fin 1000)⟩]

/-- Concrete already-sorted two-level profile with tied pressures. -/
def tiedProfile : List ProfileRow :=
  [⟨.fin 1, .fin 1, .fin 850⟩, ⟨.fin 2, .fin 2, .fin 850⟩]

/-- The same two-level profile with its tied rows swapped. -/
def tiedProfileSwapped : List ProfileRow :=
  [⟨.fin 2, .fin 2, .fin 850⟩, ⟨.fin 1, .fin 1, .fin 850⟩]

@[simp] theorem flt_fin (a b : ℚ) : flt (.fin a) (.fin b) = decide (a < b) := rfl

@[simp] theorem fle_fin (a b : ℚ) : fle (.fin a) (.fin b) = decide (a ≤ b) := rfl

@[simp] theorem fge_fin (a b : ℚ) : fge (.fin a) (.fin b) = decide (b ≤ a) := rfl

@[simp] theorem fgt_fin (a b : ℚ) : fgt (.fin a) (.fin b) = decide (b < a) := rfl

/-- Propositional restatement of the overall-assessment if/elif/else chain,
with conditions exactly as in the source. -/
theorem overallAssessment_fin_eq (k li si : ℚ) :
    overallAssessment (.fin k) (.fin li) (.fin si) =
      if 35 ≤ k ∨ li < -6 ∨ si < -3 then .high
      else if (25 ≤ k ∧ k < 35) ∨ (-6 ≤ li ∧ li < -3) ∨ (-3 ≤ si ∧ si < 1) then .moderate
      else .low := by
  unfold overallAssessment
  simp only [flt_fin, fle_fin, fge_fin, Bool.or_eq_true, Bool.and_eq_true,
    decide_eq_true_eq, or_assoc]

/-- C1: over finite inputs the overall assessment is High iff K ≥ 35 or
LI < −6 or SI < −3; otherwise Moderate iff 25 ≤ K < 35 or −6 ≤ LI < −3 or
−3 ≤ SI < 1; otherwise Low.  The stated boundary examples follow: K = 35
gives High, K = 34.999 (LI, SI in the Low ranges) gives Moderate, K = 24.999
gives Low, LI = −6 gives Moderate, LI = −6.0001 gives High. -/
theorem overallAssessment_characterization (k li si : ℚ) :
    (overallAssessment (.fin k) (.fin li) (.fin si) = .high ↔
      (35 ≤ k ∨ li < -6 ∨ si < -3)) ∧
    (overallAssessment (.fin k) (.fin li) (.fin si) = .moderate ↔
      (¬(35 ≤ k ∨ li < -6 ∨ si < -3) ∧
        ((25 ≤ k ∧ k < 35) ∨ (-6 ≤ li ∧ li < -3) ∨ (-3 ≤ si ∧ si < 1)))) ∧
    (overallAssessment (.fin k) (.fin li) (.fin si) = .low ↔
      (¬(35 ≤ k ∨ li < -6 ∨ si < -3) ∧
        ¬((25 ≤ k ∧ k < 35) ∨ (-6 ≤ li ∧ li < -3) ∨ (-3 ≤ si ∧ si < 1)))) ∧
    overallAssessment (.fin 35) (.fin 5) (.fin 5) = .high ∧
    overallAssessment (.fin (34999/1000)) (.fin 5) (.fin 5) = .moderate ∧
    overallAssessment (.fin (24999/1000)) (.fin 5) (.fin 5) = .low ∧
    overallAssessment (.fin 10) (.fin (-6)) (.fin 5) = .moderate ∧
    overallAssessment (.fin 10) (.fin (-60001/10000)) (.fin 5) = .high := by
  refine ⟨?_, ?_, ?_, by norm_num [overallAssessment], by norm_num [overallAssessment],
    by norm_num [overallAssessment], by norm_num [overallAssessment],
    by norm_num [overallAssessment]⟩
  all_goals rw [overallAssessment_fin_eq]
  all_goals split_ifs with h1 h2 <;>
    try simp_all only [eq_self_iff_true, true_iff, false_iff, iff_true, iff_false,
      reduceCtorEq, not_true, not_false_iff, not_or, not_and, not_lt, not_le]
  all_goals tauto

/-- Propositional restatement of the K-Index interpretation chain. -/
theorem k_cat_fin_eq (k : ℚ) :
    k_cat (.fin k) =
      if k < 20 then "Very low thunderstorm potential"
      else if 20 ≤ k ∧ k < 25 then "Weak thunderstorm potential"
      else if 25 ≤ k ∧ k < 35 then "Moderate thunderstorm potential"
      else "High thunderstorm potential" := by
  unfold k_cat
  simp only [flt_fin, fle_fin, Bool.and_eq_true, decide_eq_true_eq]

/-- Propositional restatement of the Lifted-Index interpretation chain. -/
theorem li_cat_fin_eq (li : ℚ) :
    li_cat (.fin li) =
      if 0 < li then "Stable atmosphere"
      else if -3 ≤ li ∧ li ≤ 0 then "Slightly unstable"
      else if -6 ≤ li ∧ li < -3 then "Moderately unstable"
      else "Strongly unstable (favourable for deep convection)" := by
  unfold li_cat
  simp only [flt_fin, fle_fin, fgt_fin, Bool.and_eq_true, decide_eq_true_eq]

/-- Propositional restatement of the Showalter-Index interpretation chain. -/
theorem si_cat_fin_eq (si : ℚ) :
    si_cat (.fin si) =
      if 3 < si then "Stable"
      else if 1 ≤ si ∧ si ≤ 3 then "Weakly unstable"
      else if -3 ≤ si ∧ si < 1 then "Moderately unstable"
      else "Strongly unstable" := by
  unfold si_cat
  simp only [flt_fin, fle_fin, fgt_fin, Bool.and_eq_true, decide_eq_true_eq]

/-- C2: over finite inputs the three per-index descriptive categories have
exactly the stated boundaries.  Each category function takes only its own
index value, so the three are computed independently of the overall assessment
and of each other. -/
theorem categories_characterization (k li si : ℚ) :
    (k_cat (.fin k) = "Very low thunderstorm potential" ↔ k < 20) ∧
    (k_cat (.fin k) = "Weak thunderstorm potential" ↔ 20 ≤ k ∧ k < 25) ∧
    (k_cat (.fin k) = "Moderate thunderstorm potential" ↔ 25 ≤ k ∧ k < 35) ∧
    (k_cat (.fin k) = "High thunderstorm potential" ↔ 35 ≤ k) ∧
    (li_cat (.fin li) = "Stable atmosphere" ↔ 0 < li) ∧
    (li_cat (.fin li) = "Slightly unstable" ↔ -3 ≤ li ∧ li ≤ 0) ∧
    (li_cat (.fin li) = "Moderately unstable" ↔ -6 ≤ li ∧ li < -3) ∧
    (li_cat (.fin li) = "Strongly unstable (favourable for deep convection)" ↔ li < -6) ∧
    (si_cat (.fin si) = "Stable" ↔ 3 < si) ∧
    (si_cat (.fin si) = "Weakly unstable" ↔ 1 ≤ si ∧ si ≤ 3) ∧
    (si_cat (.fin si) = "Moderately unstable" ↔ -3 ≤ si ∧ si < 1) ∧
    (si_cat (.fin si) = "Strongly unstable" ↔ si < -3) := by
  refine ⟨?_, ?_, ?_, ?_, ?_, ?_, ?_, ?_, ?_, ?_, ?_, ?_⟩
  all_goals first
    | rw [k_cat_fin_eq]
    | rw [li_cat_fin_eq]
    | rw [si_cat_fin_eq]
  all_goals split_ifs with h1 h2 h3 <;>
    try simp_all only [String.reduceEq, eq_self_iff_true, true_iff, false_iff, iff_true,
      iff_false, not_true, imp_false, not_and, not_lt, not_le]
  all_goals first
    | tauto
    | (intros; linarith)

/-- C10: the classifier is total over all float values, NaN included: every
triple gets exactly one overall category and the branch guards all evaluate to
false on NaN, so a NaN triple falls through to Low and a NaN K-Index falls
through to the final interpretation branch. -/
theorem classifier_total_on_nan :
    (∀ k li si : FloatVal, overallAssessment k li si = .high ∨
      overallAssessment k li si = .moderate ∨ overallAssessment k li si = .low) ∧
    (∀ v : FloatVal, flt .nan v = false ∧ flt v .nan = false ∧
      fle .nan v = false ∧ fle v .nan = false) ∧
    overallAssessment .nan .nan .nan = .low ∧
    k_cat .nan = "High thunderstorm potential" := by
  refine ⟨?_, ?_, rfl, rfl⟩
  · intro k li si
    unfold overallAssessment
    split_ifs <;> simp
  · intro v
    cases v <;> simp [flt, fle]

theorem fle_trans {a b c : FloatVal} (h1 : fle a b = true) (h2 : fle b c = true) :
    fle a c = true := by
  cases a <;> cases b <;> cases c <;> simp_all [fle] <;> linarith

theorem fle_ne_nan {a b : FloatVal} (h : fle a b = true) : a ≠ .nan ∧ b ≠ .nan := by
  cases a <;> cases b <;> simp_all [fle]

theorem fle_total {a b : FloatVal} (ha : a ≠ .nan) (hb : b ≠ .nan) :
    (fle a b || fle b a) = true := by
  cases a <;> cases b <;> simp_all [fle]
  exact le_total ..

theorem isNA_eq_false {v : FloatVal} (h : v ≠ .nan) : isNA v = false := by
  cases v <;> simp_all [isNA]

theorem ne_nan_of_isNA {v : FloatVal} (h : isNA v = false) : v ≠ .nan := by
  cases v <;> simp_all [isNA]

theorem sortLe_trans (a b c : ProfileRow) (h1 : sortLe a b = true) (h2 : sortLe b c = true) :
    sortLe a c = true := by
  unfold sortLe fge at *
  cases hc : isNA c.press with
  | true => simp [hc]
  | false =>
    rw [hc, Bool.or_false] at h2
    have hb : isNA b.press = false := isNA_eq_false (fle_ne_nan h2).2
    rw [hb, Bool.or_false] at h1
    rw [Bool.or_false]
    exact fle_trans h2 h1

theorem sortLe_total (a b : ProfileRow) : (sortLe a b || sortLe b a) = true := by
  unfold sortLe fge
  cases ha : isNA a.press with
  | true => simp
  | false =>
    cases hb : isNA b.press with
    | true => simp
    | false =>
      simp only [Bool.or_false, Bool.or_assoc, Bool.or_comm, Bool.or_left_comm]
      have := fle_total (ne_nan_of_isNA hb) (ne_nan_of_isNA ha)
      simp only [Bool.or_eq_true] at this ⊢
      tauto

theorem mem_dropna {rs : List ProfileRow} {r : ProfileRow} (h : r ∈ dropna rs) :
    rowHasNA r = false ∧ r ∈ rs := by
  unfold dropna at h
  rw [List.mem_filter] at h
  exact ⟨by simpa using h.2, h.1⟩

theorem mem_buildProfile {rows : List RawRow} {r : ProfileRow} (h : r ∈ buildProfile rows) :
    rowHasNA r = false ∧ r ∈ rows.map coerceRow := by
  unfold buildProfile sort_values at h
  rw [List.mem_mergeSort] at h
  exact mem_dropna h

theorem sort_values_satisfies (rs : List ProfileRow) :
    IsSortValuesResult rs (sort_values rs) :=
  ⟨List.mergeSort_perm rs sortLe, List.sorted_mergeSort sortLe_trans sortLe_total rs⟩

theorem mem_contract_clean {rows : List RawRow} {out : List ProfileRow}
    (h : IsSortValuesResult (dropna (rows.map coerceRow)) out) :
    ∀ r ∈ out, rowHasNA r = false := by
  intro r hr
  exact (mem_dropna (h.1.mem_iff.mp hr)).1

/-- C5 (amended): every output the sort contract admits on the cleaned rows —
in particular the output of any program run — is a permutation of the cleaned
rows and is pairwise (hence adjacent-wise) non-increasing in pressure, and the
executable pipeline satisfies the contract.  The relative order of rows with
equal pressure is NOT guaranteed: pandas sort_values defaults to the unstable
quicksort kind (see the counterexample). -/
theorem buildProfile_sorted (rows : List RawRow) (output : List ProfileRow)
    (h : IsSortValuesResult (dropna (rows.map coerceRow)) output) :
    output.Perm (dropna (rows.map coerceRow)) ∧
    output.Pairwise (fun a b => fge a.press b.press = true) ∧
    IsSortValuesResult (dropna (rows.map coerceRow)) (buildProfile rows) := by
  refine ⟨h.1, ?_, sort_values_satisfies _⟩
  refine h.2.imp_of_mem ?_
  intro a b ha hb hab
  have hbp : isNA b.press = false := by
    have := mem_contract_clean h b hb
    unfold rowHasNA at this
    simp only [Bool.or_eq_false_iff] at this
    exact this.2
  unfold sortLe at hab
  rw [hbp, Bool.or_false] at hab
  exact hab

/-- Witness for the amended C5 theorem at a concrete one-row input. -/
theorem buildProfile_sorted_witness :
    (buildProfile oneRowInput.rawRows).Perm (dropna (oneRowInput.rawRows.map coerceRow)) ∧
    (buildProfile oneRowInput.rawRows).Pairwise (fun a b => fge a.press b.press = true) ∧
    IsSortValuesResult (dropna (oneRowInput.rawRows.map coerceRow))
      (buildProfile oneRowInput.rawRows) :=
  buildProfile_sorted oneRowInput.rawRows (buildProfile oneRowInput.rawRows)
    (sort_values_satisfies (dropna (oneRowInput.rawRows.map coerceRow)))

/-- Counterexample to C5 as stated: on two cleaned rows with tied pressures
the sort contract also admits the output in which the tied rows are swapped,
so the stated preservation of original relative order is not a property the
program guarantees (pandas default quicksort is documented as unstable). -/
theorem sortValues_not_stable :
    IsSortValuesResult (dropna (tiedRawRows.map coerceRow))
      [⟨.fin 2, .fin 2, .fin 1000⟩, ⟨.fin 1, .fin 1, .fin 1000⟩] ∧
    ([⟨.fin 2, .fin 2, .fin 1000⟩, ⟨.fin 1, .fin 1, .fin 1000⟩] : List ProfileRow) ≠
      dropna (tiedRawRows.map coerceRow) :=
  ⟨⟨by decide, by decide⟩, by decide⟩

/-- C6 (amended): every row of the built profile has all three fields non-NaN
and is the coercion of some input row; rows with a non-coercible or missing
value never appear.  (Finiteness is not guaranteed: infinities survive
`dropna`, see the counterexample.) -/
theorem buildProfile_rows_clean (rows : List RawRow) (r : ProfileRow)
    (hr : r ∈ buildProfile rows) :
    isNA r.temp = false ∧ isNA r.dew = false ∧ isNA r.press = false ∧
      ∃ s ∈ rows, coerceRow s = r := by
  obtain ⟨hna, hmem⟩ := mem_buildProfile hr
  unfold rowHasNA at hna
  simp only [Bool.or_eq_false_iff] at hna
  exact ⟨hna.1.1, hna.1.2, hna.2, List.mem_map.mp hmem⟩

/-- Witness for the amended C6 theorem at a concrete one-row input. -/
theorem buildProfile_rows_clean_witness :
    isNA (FloatVal.fin 25) = false ∧ isNA (FloatVal.fin 20) = false ∧
      isNA (FloatVal.fin 1000) = false ∧
      ∃ s ∈ [(⟨Cell.num (.fin 25), Cell.num (.fin 20), Cell.num (.fin 1000)⟩ : RawRow)],
        coerceRow s = ⟨FloatVal.fin 25, FloatVal.fin 20, FloatVal.fin 1000⟩ :=
  buildProfile_rows_clean
    [⟨Cell.num (.fin 25), Cell.num (.fin 20), Cell.num (.fin 1000)⟩]
    ⟨FloatVal.fin 25, FloatVal.fin 20, FloatVal.fin 1000⟩
    (by simp [buildProfile, sort_values, dropna, coerceRow, to_numeric, rowHasNA, isNA])

/-- Counterexample to C6 as stated: a pressure cell holding infinity (for
example the string "inf", which `pd.to_numeric` parses) passes `dropna`, so
the built profile contains a row whose pressure is not finite. -/
theorem buildProfile_not_all_finite :
    buildProfile [⟨Cell.num (.fin 25), Cell.num (.fin 20), Cell.strNum .inf⟩] =
      [⟨FloatVal.fin 25, FloatVal.fin 20, FloatVal.inf⟩] ∧
    isFinite FloatVal.inf = false := by
  constructor
  · simp [buildProfile, sort_values, dropna, coerceRow, to_numeric, rowHasNA, isNA]
  · rfl

theorem coerce_profileToRaw (l : List ProfileRow) :
    (l.map profileToRaw).map coerceRow = l := by
  rw [List.map_map]
  have h : coerceRow ∘ profileToRaw = id := by
    funext r
    rfl
  rw [h, List.map_id]

theorem dropna_eq_self_of_clean {l : List ProfileRow}
    (h : ∀ r ∈ l, rowHasNA r = false) : dropna l = l := by
  apply List.filter_eq_self.mpr
  intro a ha
  simp [h a ha]

theorem flt_ne_nan {a b : FloatVal} (h : flt a b = true) : a ≠ .nan ∧ b ≠ .nan := by
  cases a <;> cases b <;> simp_all [flt]

theorem eq_nan_of_isNA {v : FloatVal} (h : isNA v = true) : v = .nan := by
  cases v <;> simp_all [isNA]

theorem flt_fle_false {a b : FloatVal} (h1 : flt a b = true) (h2 : fle b a = true) :
    False := by
  cases a <;> cases b <;> simp_all [flt, fle] <;> linarith

theorem eq_of_perm_of_strict_sorted : ∀ {l1 l2 : List ProfileRow},
    l1.Perm l2 →
    l1.Pairwise (fun a b => flt b.press a.press = true) →
    l2.Pairwise (fun a b => sortLe a b = true) →
    l1 = l2 := by
  intro l1
  induction l1 with
  | nil =>
    intro l2 hp _ _
    exact (hp.symm.eq_nil).symm
  | cons a t1 ih =>
    intro l2 hp hs1 hs2
    cases l2 with
    | nil => exact absurd hp.eq_nil (by simp)
    | cons b t2 =>
      have hab : a = b := by
        have hbmem : b ∈ a :: t1 := hp.symm.subset (List.mem_cons_self b t2)
        have hamem : a ∈ b :: t2 := hp.subset (List.mem_cons_self a t1)
        rcases List.mem_cons.mp hbmem with hba | hbt1
        · exact hba.symm
        rcases List.mem_cons.mp hamem with hab2 | hat2
        · exact hab2
        have h1 : flt b.press a.press = true := (List.pairwise_cons.mp hs1).1 b hbt1
        have h2 : sortLe b a = true := (List.pairwise_cons.mp hs2).1 a hat2
        unfold sortLe fge at h2
        have h2' : fle a.press b.press = true ∨ isNA a.press = true := by simpa using h2
        rcases h2' with h2a | h2b
        · exact (flt_fle_false h1 h2a).elim
        · exact absurd (eq_nan_of_isNA h2b) (flt_ne_nan h1).2
      subst hab
      have hp' : t1.Perm t2 := hp.cons_inv
      rw [ih hp' (List.pairwise_cons.mp hs1).2 (List.pairwise_cons.mp hs2).2]

/-- C8 (amended): re-running the clean-coerce-drop-sort pipeline on a profile
it produced yields a profile containing exactly the same rows (a permutation),
again pairwise non-increasing in pressure; row-for-row identity is guaranteed
when the pressures are strictly decreasing (no ties), but rows with tied
pressures may be permuted by the re-sort, because the sort contract does not
fix their order (see the counterexample). -/
theorem buildProfile_idempotent_upto_ties (rows : List RawRow)
    (out1 out2 : List ProfileRow)
    (h1 : IsSortValuesResult (dropna (rows.map coerceRow)) out1)
    (h2 : IsSortValuesResult (dropna ((out1.map profileToRaw).map coerceRow)) out2) :
    out2.Perm out1 ∧
    out2.Pairwise (fun a b => fge a.press b.press = true) ∧
    (out1.Pairwise (fun a b => flt b.press a.press = true) → out2 = out1) := by
  have hclean : ∀ r ∈ out1, rowHasNA r = false := mem_contract_clean h1
  have hid : dropna ((out1.map profileToRaw).map coerceRow) = out1 := by
    rw [coerce_profileToRaw]
    exact dropna_eq_self_of_clean hclean
  rw [hid] at h2
  refine ⟨h2.1, ?_, fun hstrict => ?_⟩
  · refine h2.2.imp_of_mem ?_
    intro a b ha hb hab
    have hbp : isNA b.press = false := by
      have := hclean b (h2.1.mem_iff.mp hb)
      unfold rowHasNA at this
      simp only [Bool.or_eq_false_iff] at this
      exact this.2
    unfold sortLe at hab
    rw [hbp, Bool.or_false] at hab
    exact hab
  · exact (eq_of_perm_of_strict_sorted h2.1.symm hstrict h2.2).symm

/-- Witness for the amended C8 theorem at a concrete one-row profile. -/
theorem buildProfile_idempotent_upto_ties_witness :
    ([⟨FloatVal.fin 25, FloatVal.fin 20, FloatVal.fin 1000⟩] : List ProfileRow).Perm
      [⟨FloatVal.fin 25, FloatVal.fin 20, FloatVal.fin 1000⟩] ∧
    ([⟨FloatVal.fin 25, FloatVal.fin 20, FloatVal.fin 1000⟩] : List ProfileRow).Pairwise
      (fun a b => fge a.press b.press = true) ∧
    ([⟨FloatVal.fin 25, FloatVal.fin 20, FloatVal.fin 1000⟩] : List ProfileRow) =
      [⟨FloatVal.fin 25, FloatVal.fin 20, FloatVal.fin 1000⟩] := by
  have h := buildProfile_idempotent_upto_ties oneRowInput.rawRows
    [⟨FloatVal.fin 25, FloatVal.fin 20, FloatVal.fin 1000⟩]
    [⟨FloatVal.fin 25, FloatVal.fin 20, FloatVal.fin 1000⟩]
    ⟨by decide, by decide⟩ ⟨by decide, by decide⟩
  exact ⟨h.1, h.2.1, h.2.2 (by decide)⟩

/-- Counterexample to C8 as stated: `tiedProfile` is a valid sorted profile
(an admissible first-run output), and on its re-injection the sort contract
also admits `tiedProfileSwapped`, in which the two tied-pressure rows have
traded places; re-running is therefore not guaranteed to reproduce the profile
row for row. -/
theorem rebuild_may_permute_ties :
    tiedProfile.Pairwise (fun a b => sortLe a b = true) ∧
    IsSortValuesResult (dropna ((tiedProfile.map profileToRaw).map coerceRow))
      tiedProfileSwapped ∧
    tiedProfileSwapped ≠ tiedProfile := by
  refine ⟨by decide, ⟨by decide, by decide⟩, by decide⟩

theorem inferStep_no_match {st : RoleMap} {c : String}
    (h1 : containsSub (strLower c) "temp" = false)
    (h2 : containsSub (strLower c) "dew" = false)
    (h3 : containsSub (strLower c) "press" = false) :
    (inferStep st c).temp_col = st.temp_col ∧
    (inferStep st c).dew_col = st.dew_col ∧
    (inferStep st c).press_col = st.press_col := by
  unfold inferStep
  simp only [h1, h2, h3, Bool.false_and, Bool.false_eq_true, if_false]
  split_ifs <;> simp

theorem inferStep_no_alt {st : RoleMap} {c : String}
    (h4 : containsSub (strLower c) "alt" = false)
    (h5 : containsSub (strLower c) "height" = false) :
    (inferStep st c).alt_col = st.alt_col := by
  unfold inferStep
  simp only [h4, h5, Bool.or_self, Bool.false_and, Bool.false_eq_true, if_false]
  split_ifs <;> simp

theorem foldl_inferStep_no_match : ∀ (cols : List String) (st : RoleMap),
    (∀ c ∈ cols, containsSub (strLower c) "temp" = false ∧
      containsSub (strLower c) "dew" = false ∧
      containsSub (strLower c) "press" = false) →
    (cols.foldl inferStep st).temp_col = st.temp_col ∧
    (cols.foldl inferStep st).dew_col = st.dew_col ∧
    (cols.foldl inferStep st).press_col = st.press_col
  | [], _, _ => ⟨rfl, rfl, rfl⟩
  | c :: cs, st, hno => by
    rw [List.foldl_cons]
    obtain ⟨h1, h2, h3⟩ := hno c (List.mem_cons_self c cs)
    have hstep := @inferStep_no_match st c h1 h2 h3
    have hrest := foldl_inferStep_no_match cs (inferStep st c)
      (fun d hd => hno d (List.mem_cons_of_mem c hd))
    exact ⟨hrest.1.trans hstep.1, hrest.2.1.trans hstep.2.1, hrest.2.2.trans hstep.2.2⟩

theorem foldl_inferStep_no_alt : ∀ (cols : List String) (st : RoleMap),
    (∀ c ∈ cols, containsSub (strLower c) "alt" = false ∧
      containsSub (strLower c) "height" = false) →
    (cols.foldl inferStep st).alt_col = st.alt_col
  | [], _, _ => rfl
  | c :: cs, st, hno => by
    rw [List.foldl_cons]
    obtain ⟨h4, h5⟩ := hno c (List.mem_cons_self c cs)
    have hrest := foldl_inferStep_no_alt cs (inferStep st c)
      (fun d hd => hno d (List.mem_cons_of_mem c hd))
    exact hrest.trans (@inferStep_no_alt st c h4 h5)

theorem applyFallbacks_all_none (st : RoleMap) (cols : List String)
    (h1 : st.temp_col = none) (h2 : st.dew_col = none) (h3 : st.press_col = none)
    (hlen : 3 ≤ cols.length) :
    (applyFallbacks st cols).temp_col = cols[0]? ∧
    (applyFallbacks st cols).dew_col = cols[1]? ∧
    (applyFallbacks st cols).press_col = cols[2]? ∧
    (applyFallbacks st cols).alt_col = st.alt_col := by
  unfold applyFallbacks
  have l1 : 1 ≤ cols.length := by omega
  have l2 : 2 ≤ cols.length := by omega
  simp [h1, h2, h3, hlen, l1, l2]

/-- C7: for a table with at least three columns whose lowercased names contain
none of the substrings "temp", "dew", "press", the three roles fall back to
columns 0, 1 and 2; altitude has no positional fallback and stays unresolved
absent an "alt"/"height" name match; a zero-column table leaves every role
unresolved. -/
theorem inferColumns_positional_fallback (cols : List String)
    (hlen : 3 ≤ cols.length)
    (hno : ∀ c ∈ cols, containsSub (strLower c) "temp" = false ∧
      containsSub (strLower c) "dew" = false ∧
      containsSub (strLower c) "press" = false) :
    (inferColumns cols).temp_col = cols[0]? ∧
    (inferColumns cols).dew_col = cols[1]? ∧
    (inferColumns cols).press_col = cols[2]? ∧
    ((∀ c ∈ cols, containsSub (strLower c) "alt" = false ∧
        containsSub (strLower c) "height" = false) →
      (inferColumns cols).alt_col = none) ∧
    inferColumns [] = ⟨none, none, none, none⟩ := by
  have hscan := foldl_inferStep_no_match cols ⟨none, none, none, none⟩ hno
  have hfb := applyFallbacks_all_none (scanColumns cols) cols hscan.1 hscan.2.1 hscan.2.2 hlen
  refine ⟨hfb.1, hfb.2.1, hfb.2.2.1, ?_, rfl⟩
  intro halt
  exact hfb.2.2.2.trans (foldl_inferStep_no_alt cols ⟨none, none, none, none⟩ halt)

/-- Witness for C7 at the concrete table ["a", "b", "c"]. -/
theorem inferColumns_positional_fallback_witness :
    (inferColumns ["a", "b", "c"]).temp_col = ["a", "b", "c"][0]? ∧
    (inferColumns ["a", "b", "c"]).dew_col = ["a", "b", "c"][1]? ∧
    (inferColumns ["a", "b", "c"]).press_col = ["a", "b", "c"][2]? ∧
    (inferColumns ["a", "b", "c"]).alt_col = none := by
  have h := inferColumns_positional_fallback ["a", "b", "c"] (by decide) (by decide)
  exact ⟨h.1, h.2.1, h.2.2.1, h.2.2.2.1 (by decide)⟩

theorem inferStep_temp_cases (st : RoleMap) (c : String) :
    (inferStep st c).temp_col = st.temp_col ∨ (inferStep st c).temp_col = some c := by
  unfold inferStep
  dsimp only
  split_ifs <;> simp

theorem inferStep_dew_cases (st : RoleMap) (c : String) :
    (inferStep st c).dew_col = st.dew_col ∨ (inferStep st c).dew_col = some c := by
  unfold inferStep
  dsimp only
  split_ifs <;> simp

theorem inferStep_press_cases (st : RoleMap) (c : String) :
    (inferStep st c).press_col = st.press_col ∨ (inferStep st c).press_col = some c := by
  unfold inferStep
  dsimp only
  split_ifs <;> simp

theorem inferStep_alt_cases (st : RoleMap) (c : String) :
    (inferStep st c).alt_col = st.alt_col ∨ (inferStep st c).alt_col = some c := by
  unfold inferStep
  dsimp only
  split_ifs <;> simp

theorem foldl_inferStep_mem : ∀ (cols : List String) (st : RoleMap) (c : String),
    ((cols.foldl inferStep st).temp_col = some c → st.temp_col = some c ∨ c ∈ cols) ∧
    ((cols.foldl inferStep st).dew_col = some c → st.dew_col = some c ∨ c ∈ cols) ∧
    ((cols.foldl inferStep st).press_col = some c → st.press_col = some c ∨ c ∈ cols) ∧
    ((cols.foldl inferStep st).alt_col = some c → st.alt_col = some c ∨ c ∈ cols)
  | [], _, _ => by simp
  | d :: ds, st, c => by
    rw [List.foldl_cons]
    have ih := foldl_inferStep_mem ds (inferStep st d) c
    refine ⟨fun h => ?_, fun h => ?_, fun h => ?_, fun h => ?_⟩
    · rcases ih.1 h with h' | h'
      · rcases inferStep_temp_cases st d with he | he
        · exact .inl (he ▸ h')
        · have hd : d = c := Option.some.inj (he ▸ h')
          subst hd
          exact .inr (List.mem_cons_self d ds)
      · exact .inr (List.mem_cons_of_mem d h')
    · rcases ih.2.1 h with h' | h'
      · rcases inferStep_dew_cases st d with he | he
        · exact .inl (he ▸ h')
        · have hd : d = c := Option.some.inj (he ▸ h')
          subst hd
          exact .inr (List.mem_cons_self d ds)
      · exact .inr (List.mem_cons_of_mem d h')
    · rcases ih.2.2.1 h with h' | h'
      · rcases inferStep_press_cases st d with he | he
        · exact .inl (he ▸ h')
        · have hd : d = c := Option.some.inj (he ▸ h')
          subst hd
          exact .inr (List.mem_cons_self d ds)
      · exact .inr (List.mem_cons_of_mem d h')
    · rcases ih.2.2.2 h with h' | h'
      · rcases inferStep_alt_cases st d with he | he
        · exact .inl (he ▸ h')
        · have hd : d = c := Option.some.inj (he ▸ h')
          subst hd
          exact .inr (List.mem_cons_self d ds)
      · exact .inr (List.mem_cons_of_mem d h')

theorem applyFallbacks_cases (st : RoleMap) (cols : List String) :
    ((applyFallbacks st cols).temp_col = st.temp_col ∨
      (applyFallbacks st cols).temp_col = cols[0]?) ∧
    ((applyFallbacks st cols).dew_col = st.dew_col ∨
      (applyFallbacks st cols).dew_col = cols[1]?) ∧
    ((applyFallbacks st cols).press_col = st.press_col ∨
      (applyFallbacks st cols).press_col = cols[2]?) ∧
    (applyFallbacks st cols).alt_col = st.alt_col := by
  unfold applyFallbacks
  simp only [Bool.and_eq_true, decide_eq_true_eq, Option.isNone_iff_eq_none]
  split_ifs <;> simp

/-- C9 (amended): every role resolved by heuristic inference references an
existing column of the table.  Distinctness of the three resolved roles does
not hold in general: see the counterexample with a column named "dewtemp". -/
theorem inferColumns_roles_exist (cols : List String) (c : String) :
    ((inferColumns cols).temp_col = some c → c ∈ cols) ∧
    ((inferColumns cols).dew_col = some c → c ∈ cols) ∧
    ((inferColumns cols).press_col = some c → c ∈ cols) ∧
    ((inferColumns cols).alt_col = some c → c ∈ cols) := by
  unfold inferColumns
  have hfb := applyFallbacks_cases (scanColumns cols) cols
  have hscan := foldl_inferStep_mem cols ⟨none, none, none, none⟩ c
  have hinit : (none : Option String) = some c ∨ c ∈ cols → c ∈ cols := by
    rintro (h | h)
    · exact absurd h (by simp)
    · exact h
  refine ⟨fun h => ?_, fun h => ?_, fun h => ?_, fun h => ?_⟩
  · rcases hfb.1 with he | he
    · rw [he] at h
      exact hinit (hscan.1 h)
    · rw [he] at h
      exact List.getElem?_mem h
  · rcases hfb.2.1 with he | he
    · rw [he] at h
      exact hinit (hscan.2.1 h)
    · rw [he] at h
      exact List.getElem?_mem h
  · rcases hfb.2.2.1 with he | he
    · rw [he] at h
      exact hinit (hscan.2.2.1 h)
    · rw [he] at h
      exact List.getElem?_mem h
  · rw [hfb.2.2.2] at h
    exact hinit (hscan.2.2.2 h)

/-- Witness for the amended C9 theorem at the concrete table ["x"]. -/
theorem inferColumns_roles_exist_witness :
    (inferColumns ["x"]).temp_col = some "x" ∧ "x" ∈ ["x"] :=
  ⟨by decide, (inferColumns_roles_exist ["x"] "x").1 (by decide)⟩

/-- Counterexample to C9 as stated: with columns ["dewtemp", "b", "c"] all
three roles resolve, but temperature and dew point both reference the same
column "dewtemp" (its name contains both substrings), so the three resolved
roles are not distinct. -/
theorem inferColumns_duplicate_roles :
    (inferColumns ["dewtemp", "b", "c"]).temp_col = some "dewtemp" ∧
    (inferColumns ["dewtemp", "b", "c"]).dew_col = some "dewtemp" ∧
    (inferColumns ["dewtemp", "b", "c"]).press_col = some "c" ∧
    (inferColumns ["dewtemp", "b", "c"]).temp_col =
      (inferColumns ["dewtemp", "b", "c"]).dew_col := by
  refine ⟨?_, ?_, ?_, ?_⟩ <;> decide

theorem tryBody_error_of_lib (inp : MainInput) (prof : List ProfileRow)
    (kIndexFn liIndexFn siIndexFn : IndexFn) (e : String)
    (hfail :
      kIndexFn (prof.map (fun r => r.press)) (prof.map (fun r => r.temp))
        (prof.map (fun r => r.dew)) = .error e ∨
      (∃ K, kIndexFn (prof.map (fun r => r.press)) (prof.map (fun r => r.temp))
          (prof.map (fun r => r.dew)) = .ok K ∧
        liIndexFn (prof.map (fun r => r.press)) (prof.map (fun r => r.temp))
          (prof.map (fun r => r.dew)) = .error e) ∨
      (∃ K LI, kIndexFn (prof.map (fun r => r.press)) (prof.map (fun r => r.temp))
          (prof.map (fun r => r.dew)) = .ok K ∧
        liIndexFn (prof.map (fun r => r.press)) (prof.map (fun r => r.temp))
          (prof.map (fun r => r.dew)) = .ok LI ∧
        siIndexFn (prof.map (fun r => r.press)) (prof.map (fun r => r.temp))
          (prof.map (fun r => r.dew)) = .error e)) :
    tryBody inp prof kIndexFn liIndexFn siIndexFn = .error e := by
  unfold tryBody
  dsimp only
  rcases hfail with hk | ⟨K, hk, hli⟩ | ⟨K, LI, hk, hli, hsi⟩
  · rw [hk]
    rfl
  · rw [hk, hli]
    rfl
  · rw [hk, hli, hsi]
    rfl

/-- C3 (amended): whenever the external library raises on a non-empty
profile — regardless of which of the three calls (k_index, lifted_index,
showalter_index) is the first to fail — the failure is caught at the evaluator
boundary and surfaced with the underlying cause text, the classifier is never
invoked and the raw-data preview remains available; but the
temperature/dew-point-vs-pressure plot is built inside the guarded block, so
it is not rendered either. -/
theorem indices_failure_isolated (inp : MainInput)
    (kIndexFn liIndexFn siIndexFn : IndexFn) (e : String)
    (hne : buildProfile inp.rawRows ≠ [])
    (hfail :
      kIndexFn ((buildProfile inp.rawRows).map (fun r => r.press))
        ((buildProfile inp.rawRows).map (fun r => r.temp))
        ((buildProfile inp.rawRows).map (fun r => r.dew)) = .error e ∨
      (∃ K, kIndexFn ((buildProfile inp.rawRows).map (fun r => r.press))
          ((buildProfile inp.rawRows).map (fun r => r.temp))
          ((buildProfile inp.rawRows).map (fun r => r.dew)) = .ok K ∧
        liIndexFn ((buildProfile inp.rawRows).map (fun r => r.press))
          ((buildProfile inp.rawRows).map (fun r => r.temp))
          ((buildProfile inp.rawRows).map (fun r => r.dew)) = .error e) ∨
      (∃ K LI, kIndexFn ((buildProfile inp.rawRows).map (fun r => r.press))
          ((buildProfile inp.rawRows).map (fun r => r.temp))
          ((buildProfile inp.rawRows).map (fun r => r.dew)) = .ok K ∧
        liIndexFn ((buildProfile inp.rawRows).map (fun r => r.press))
          ((buildProfile inp.rawRows).map (fun r => r.temp))
          ((buildProfile inp.rawRows).map (fun r => r.dew)) = .ok LI ∧
        siIndexFn ((buildProfile inp.rawRows).map (fun r => r.press))
          ((buildProfile inp.rawRows).map (fun r => r.temp))
          ((buildProfile inp.rawRows).map (fun r => r.dew)) = .error e)) :
    mainLogic inp kIndexFn liIndexFn siIndexFn =
      [RenderItem.previewTable,
        RenderItem.indicesError ("Error calculating indices: " ++ e)] ∧
    RenderItem.previewTable ∈ mainLogic inp kIndexFn liIndexFn siIndexFn ∧
    (∀ c, RenderItem.assessmentCard c ∉ mainLogic inp kIndexFn liIndexFn siIndexFn) ∧
    (∀ rs, RenderItem.profilePlot rs ∉ mainLogic inp kIndexFn liIndexFn siIndexFn) := by
  have hmain : mainLogic inp kIndexFn liIndexFn siIndexFn =
      [RenderItem.previewTable,
        RenderItem.indicesError ("Error calculating indices: " ++ e)] := by
    unfold mainLogic
    dsimp only
    rw [if_neg (by simpa using hne)]
    rw [tryBody_error_of_lib inp _ kIndexFn liIndexFn siIndexFn e hfail]
  refine ⟨hmain, ?_, fun c => ?_, fun rs => ?_⟩ <;> rw [hmain] <;> simp

/-- Witness for the amended C3 theorem: a raising stub on a one-level
profile. -/
theorem indices_failure_isolated_witness :
    mainLogic oneRowInput raiseAll raiseAll raiseAll =
      [RenderItem.previewTable,
        RenderItem.indicesError ("Error calculating indices: " ++ "insufficient data")] ∧
    RenderItem.previewTable ∈ mainLogic oneRowInput raiseAll raiseAll raiseAll ∧
    (∀ c, RenderItem.assessmentCard c ∉ mainLogic oneRowInput raiseAll raiseAll raiseAll) ∧
    (∀ rs, RenderItem.profilePlot rs ∉ mainLogic oneRowInput raiseAll raiseAll raiseAll) :=
  indices_failure_isolated oneRowInput raiseAll raiseAll raiseAll "insufficient data"
    (by simp [oneRowInput, buildProfile, sort_values, dropna, coerceRow, to_numeric,
      rowHasNA, isNA])
    (Or.inl rfl)

/-- Counterexample to C3 as stated: with a raising library stub the main block
emits only the preview and the error message; no
temperature/dew-point-vs-pressure plot item appears in the output, because the
plot is built inside the guarded block that the exception aborts. -/
theorem indices_failure_no_plot :
    mainLogic oneRowInput raiseAll raiseAll raiseAll =
      [RenderItem.previewTable,
        RenderItem.indicesError "Error calculating indices: insufficient data"] ∧
    (mainLogic oneRowInput raiseAll raiseAll raiseAll).all
      (fun it => !isProfilePlot it) = true := by
  have h : mainLogic oneRowInput raiseAll raiseAll raiseAll =
      [RenderItem.previewTable,
        RenderItem.indicesError "Error calculating indices: insufficient data"] := by
    unfold mainLogic
    dsimp only
    rw [if_neg (by simp [oneRowInput, buildProfile, sort_values, dropna, coerceRow,
      to_numeric, rowHasNA, isNA])]
    rw [tryBody_error_of_lib oneRowInput _ raiseAll raiseAll raiseAll "insufficient data"
      (Or.inl rfl)]
    rfl
  refine ⟨h, by rw [h]; rfl⟩

/-- C4 (amended): the evaluator performs no mean reduction.  A scalar library
result is used directly, a one-element array converts to its element, and any
array of a different size makes the `float` conversion raise, which the
surrounding handler reports as an index-computation failure. -/
theorem pyFloat_characterization (v : FloatVal) (vs : List FloatVal) :
    pyFloat (.scalar v) = .ok v ∧
    pyFloat (.array [v]) = .ok v ∧
    (vs.length ≠ 1 →
      pyFloat (.array vs) =
        .error "only size-1 arrays can be converted to Python scalars") := by
  refine ⟨rfl, rfl, fun h => ?_⟩
  match vs with
  | [] => rfl
  | [x] => exact absurd rfl h
  | x :: y :: rest => rfl

/-- Witness for the amended C4 theorem on the two-element array [1, 3]. -/
theorem pyFloat_characterization_witness :
    pyFloat (.array [FloatVal.fin 1, FloatVal.fin 3]) =
      .error "only size-1 arrays can be converted to Python scalars" :=
  (pyFloat_characterization (.fin 2) [.fin 1, .fin 3]).2.2 (by decide)

/-- Counterexample to C4 as stated: on the array [1, 3] the reduction rule of
the spec yields the mean 2, but the conversion in the code raises instead of
producing that (or any) value. -/
theorem pyFloat_no_mean :
    specReduceIndex (.array [FloatVal.fin 1, FloatVal.fin 3]) = some (FloatVal.fin 2) ∧
    pyFloat (.array [FloatVal.fin 1, FloatVal.fin 3]) =
      .error "only size-1 arrays can be converted to Python scalars" := by
  constructor
  · norm_num [specReduceIndex, finPart, List.filterMap_cons, List.filterMap_nil]
  · rfl

end Cape
